import Mathlib

/-!
# Verification of the modal dialog controller and form validation in `src/js/login.js`

This file gives a shallow embedding of the browser-side UI controller in
`src/js/login.js` and proves properties of its dialog lifecycle, focus trap
and field validation.

Modelling choices:

* The two dialog containers (`#register-window`, `#login-window`) are assumed
  present in the page, so the `modals` object is the two-key map below.
* DOM elements are modelled by the `Elem` structure: the attributes consulted
  by `getFocusables` plus a numeric identity `eid` standing for object
  identity (JS `===` on nodes).
* The `async` functions `openModal` / `closeModal` are split at their single
  `await` into a synchronous start (`openModalStart`, `closeModalStart`) and a
  continuation (`openModalResume`, `closeModalResume`).  The promises created
  by `animateOpen` / `animateClose` resolve only from their `animationend`
  listeners; pending listeners are counted per modal (`openListeners`,
  `closeListeners`).  Delivering an `animationend` event runs the listener
  callbacks first (DOM mutations) and then the resumed continuations, in
  registration order — open listeners are registered before close listeners
  on the same modal, matching the microtask order of the event loop.
* `modal._trap` / `addEventListener('keydown', ...)` is modelled by the
  Boolean `trapInstalled`; the modal's descendants are static, so the
  focusable list captured by the trap closure equals `getFocusables` of the
  modal's (immutable) element list and is recomputed where needed.
* `document.documentElement.style.overflow = 'hidden'` is `scrollLocked`,
  the header's `aria-hidden="true"` is `headerAriaHidden`, and
  `document.activeElement` is `focused` (`none` = JS `null`).
-/

namespace LoginJs

/-- The two dialog keys of the `modals` object (login.js lines 14–17). -/
inductive MKey where
  | register
  | login
deriving DecidableEq, Repr

/-- A DOM element as seen by `getFocusables`: the selector/attribute data it
consults, plus `eid` standing for node identity. -/
structure Elem where
  eid : Nat
  tag : String
  hasHref : Bool
  tabindex : Option String
  disabled : Bool
  ariaHidden : Option String
deriving DecidableEq, Repr

/-- The selector `button, [href], input, select, textarea,
[tabindex]:not([tabindex="-1"])` (login.js line 47). -/
def matchesFocusableSelector (el : Elem) : Bool :=
  el.tag == "button" || el.hasHref || el.tag == "input" || el.tag == "select" ||
  el.tag == "textarea" ||
  (match el.tabindex with
   | some t => t != "-1"
   | none => false)

/-- JS truthiness of `el.getAttribute('aria-hidden')`: `null` (attribute
absent) and the empty string are falsy, every other string is truthy. -/
def jsTruthyAttr : Option String → Bool
  | none => false
  | some s => s != ""

/-- `getFocusables` (login.js lines 45–51): query the selector, then keep
elements that are not disabled and whose `aria-hidden` attribute is falsy. -/
def getFocusables (elems : List Elem) : List Elem :=
  (elems.filter matchesFocusableSelector).filter
    (fun el => !el.disabled && !jsTruthyAttr el.ariaHidden)

/-- JS strict equality `a === b` between `document.activeElement` (an element
or `null`) and `focusables[0]` / `focusables.at(-1)` (an element or
`undefined`).  `null === undefined` is false, so two `none`s never compare
equal (they come from the two distinct JS values). -/
def strictEq : Option Elem → Option Elem → Bool
  | some a, some b => a == b
  | _, _ => false

/-- The keydown handler `modal._trap` (login.js lines 102–111), as a function
of the captured focusable list, the key event data, and the current
`document.activeElement`.  Returns `some (newActive, preventedDefault)`, or
`none` when the handler would crash (calling `.focus()` on `undefined`). -/
def trapHandler (focusables : List Elem) (key : String) (shift : Bool)
    (active : Option Elem) : Option (Option Elem × Bool) :=
  if key != "Tab" then some (active, false)
  else
    let first := focusables.head?
    let last := focusables.getLast?
    if shift && strictEq active first then
      match last with
      | some l => some (some l, true)
      | none => none
    else if !shift && strictEq active last then
      match first with
      | some f => some (some f, true)
      | none => none
    else some (active, false)

/-- Per-modal mutable state: the `hidden` property, the `is-opening` /
`is-closing` classes, whether the `_trap` keydown listener is attached, and
the numbers of pending `animationend` listeners from `animateOpen` /
`animateClose` (each pending listener has the corresponding suspended
continuation of `openModal` / `closeModal` waiting on its promise). -/
structure ModalState where
  hidden : Bool
  isOpening : Bool
  isClosing : Bool
  trapInstalled : Bool
  openListeners : Nat
  closeListeners : Nat
deriving DecidableEq, Repr

/-- The whole mutable state of the script: the static element lists of the
two modal containers, their runtime state, the `activeModal` variable, the
scroll lock, the header's `aria-hidden` marker, and `document.activeElement`. -/
structure St where
  regDom : List Elem
  logDom : List Elem
  regM : ModalState
  logM : ModalState
  activeModal : Option MKey
  scrollLocked : Bool
  headerAriaHidden : Bool
  focused : Option Elem
deriving DecidableEq, Repr

/-- The static descendant list of a modal container. -/
def St.dom (s : St) : MKey → List Elem
  | .register => s.regDom
  | .login => s.logDom

/-- The runtime state of a modal. -/
def St.m (s : St) : MKey → ModalState
  | .register => s.regM
  | .login => s.logM

/-- Replace the runtime state of one modal. -/
def St.withM (s : St) (k : MKey) (ms : ModalState) : St :=
  match k with
  | .register => { s with regM := ms }
  | .login => { s with logM := ms }

/-- The `modals` lookup object (login.js lines 14–17): `modals[key]`. -/
def modals : String → Option MKey
  | "register" => some .register
  | "login" => some .login
  | _ => none

/-- Synchronous part of `animateOpen` (login.js lines 56–59 and the listener
registration on line 67): unhide, swap classes, register the `animationend`
listener whose resolution the caller awaits. -/
def animateOpenStart (ms : ModalState) : ModalState :=
  { ms with hidden := false, isClosing := false, isOpening := true,
            openListeners := ms.openListeners + 1 }

/-- Synchronous part of `animateClose` (login.js lines 71–73 and the listener
registration on line 82). -/
def animateCloseStart (ms : ModalState) : ModalState :=
  { ms with isOpening := false, isClosing := true,
            closeListeners := ms.closeListeners + 1 }

/-- `openModal` up to its `await` (login.js lines 87–92): look the key up in
`modals`; bail out if unknown or if some dialog is active; otherwise set
`activeModal` and start the open animation, suspending on its promise. -/
def openModalStart (key : String) (s : St) : St :=
  match modals key with
  | none => s
  | some k =>
      if s.activeModal.isSome then s
      else
        let s1 := { s with activeModal := some k }
        s1.withM k (animateOpenStart (s1.m k))

/-- The continuation of `openModal` after its `await` (login.js lines
94–113): lock the page scroll, hide the header from assistive tech, install
the focus trap, and focus the first focusable element if there is one. -/
def openModalResume (k : MKey) (s : St) : St :=
  let s1 := { s with scrollLocked := true, headerAriaHidden := true }
  let s2 := s1.withM k { s1.m k with trapInstalled := true }
  match (getFocusables (s2.dom k)).head? with
  | some f => { s2 with focused := some f }
  | none => s2

/-- `closeModal` up to its `await` (login.js lines 116–121): bail out if no
dialog is active; otherwise remove the trap keydown listener and start the
close animation, suspending on its promise.  (`removeEventListener` with
`m._trap || (() => {})` detaches the trap if attached and is a no-op
otherwise.) -/
def closeModalStart (s : St) : St :=
  match s.activeModal with
  | none => s
  | some k =>
      let s1 := s.withM k { s.m k with trapInstalled := false }
      s1.withM k (animateCloseStart (s1.m k))

/-- The continuation of `closeModal` after its `await` (login.js lines
123–125): clear `activeModal`, release the scroll lock, restore the header. -/
def closeModalResume (s : St) : St :=
  { s with activeModal := none, scrollLocked := false, headerAriaHidden := false }

/-- Apply a state transformer `n` times. -/
def applyN (f : St → St) : Nat → St → St
  | 0, s => s
  | n + 1, s => applyN f n (f s)

/-- Delivery of an `animationend` event bubbling to modal `k`, with
`targetIsSelf` saying whether `e.target` is the modal itself.  Listeners
whose target check fails return immediately (lines 62 and 76).  Otherwise
each pending open listener removes `is-opening` and itself (lines 63–64),
each pending close listener removes `is-closing`, hides the modal and removes
itself (lines 77–79); then the resolved promises run the suspended
continuations in registration order (open continuations before close
continuations). -/
def animEndStep (k : MKey) (targetIsSelf : Bool) (s : St) : St :=
  if targetIsSelf then
    let ms := s.m k
    let nO := ms.openListeners
    let nC := ms.closeListeners
    let ms1 := if 0 < nO then { ms with isOpening := false, openListeners := 0 } else ms
    let ms2 :=
      if 0 < nC then { ms1 with isClosing := false, hidden := true, closeListeners := 0 }
      else ms1
    let s1 := s.withM k ms2
    let s2 := applyN (openModalResume k) nO s1
    applyN closeModalResume nC s2
  else s

/-- A Tab keydown inside modal `k` (shift held or not).  If the trap is
installed, the `_trap` handler runs on the current `document.activeElement`;
the crash case (`none`) cannot change the state here, crash-freedom is proved
separately about `trapHandler`. -/
def tabStep (k : MKey) (shift : Bool) (s : St) : St :=
  if (s.m k).trapInstalled then
    match trapHandler (getFocusables (s.dom k)) "Tab" shift s.focused with
    | some (nf, _) => { s with focused := nf }
    | none => s
  else s

/-- External events the script reacts to: a click on a `[data-open]` trigger
(carrying `btn.dataset.open`), a close request (`[data-close]` click,
backdrop mousedown, or Escape — all three call `closeModal`), an
`animationend` delivery, and a Tab keydown inside a modal. -/
inductive Evt where
  | openClick (key : String)
  | closeClick
  | animationEnd (k : MKey) (targetIsSelf : Bool)
  | tabKey (k : MKey) (shift : Bool)
deriving DecidableEq, Repr

/-- One step of the event-driven execution. -/
def step (s : St) : Evt → St
  | .openClick key => openModalStart key s
  | .closeClick => closeModalStart s
  | .animationEnd k self => animEndStep k self s
  | .tabKey k shift => tabStep k shift s

/-- Run a list of events in order. -/
def run (s : St) : List Evt → St
  | [] => s
  | e :: t => run (step s e) t

/-- The initial state after script load: both modals hidden and quiescent, no
active dialog, no scroll lock, header visible. -/
def initSt (regDom logDom : List Elem) : St :=
  { regDom := regDom, logDom := logDom,
    regM := ⟨true, false, false, false, 0, 0⟩,
    logM := ⟨true, false, false, false, 0, 0⟩,
    activeModal := none, scrollLocked := false, headerAriaHidden := false,
    focused := none }

/-! ## Field validation (login.js lines 154–219) -/

/-- The validation messages, one per rule, standing for the Ukrainian string
literals passed to `setError` on lines 202, 204, 208, 209, 213, 215. -/
inductive Msg where
  | usernameRequired
  | usernameFormat
  | emailRequired
  | emailFormat
  | passwordRequired
  | passwordFormat
deriving DecidableEq, Repr

/-- JS `String.prototype.trim` (used on line 199): drop leading and trailing
whitespace.  Whitespace is modelled by `Char.isWhitespace` (space, tab, CR,
LF), which agrees with JS on the characters relevant here. -/
def jsTrim (s : String) : String :=
  ⟨((s.data.dropWhile Char.isWhitespace).reverse.dropWhile Char.isWhitespace).reverse⟩

/-- A character of the class `[a-zA-Z0-9_]` in `re.username`. -/
def usernameChar (c : Char) : Bool :=
  c.isAlpha || c.isDigit || c == '_'

/-- `re.username = /^[a-zA-Z0-9_]{3,20}$/` (login.js line 156): whole-string
match means every character is in the class and the length is between 3
and 20. -/
def usernameTest (s : String) : Bool :=
  decide (3 ≤ s.data.length) && decide (s.data.length ≤ 20) && s.data.all usernameChar

/-- A character matching `[^\s@]`: not whitespace and not `@`. -/
def localChar (c : Char) : Bool :=
  !c.isWhitespace && c != '@'

/-- Split a character list at its first `@`, if any (the local part of
`re.email` is `[^\s@]+`, so the `@` of any match is the first `@`). -/
def splitAtFirstAt : List Char → Option (List Char × List Char)
  | [] => none
  | c :: rest =>
      if c = '@' then some ([], rest)
      else
        match splitAtFirstAt rest with
        | some (l, r) => some (c :: l, r)
        | none => none

/-- After the `@`, `re.email` requires `[^\s@]+\.[^\s@]{2,}`: since `.` is
itself in `[^\s@]`, the rest matches exactly when some dot sits at a position
`i` with at least one character before it and at least two after it. -/
def emailDotOk (r : List Char) : Bool :=
  (List.range r.length).any
    (fun i => decide (1 ≤ i) && decide (i + 3 ≤ r.length) && r.getD i ' ' == '.')

/-- `re.email = /^[^\s@]+@[^\s@]+\.[^\s@]{2,}$/` (login.js line 157). -/
def emailTest (s : String) : Bool :=
  match splitAtFirstAt s.data with
  | none => false
  | some (l, r) => !l.isEmpty && l.all localChar && r.all localChar && emailDotOk r

/-- The punctuation characters of the class in `re.strong` (login.js line
159): `!@#$%^&*()_+\-={}[\]:;"'<>?,.\/` — note no space, backslash, backtick,
pipe or tilde. -/
def strongPunct : List Char :=
  ['!', '@', '#', '$', '%', '^', '&', '*', '(', ')', '_', '+', '-', '=',
   Char.ofNat 123, Char.ofNat 125, '[', ']', ':', ';', '"', '\'', '<', '>',
   '?', ',', '.', '/']

/-- A character of the body class of `re.strong`: a letter, a digit, or one
of the listed punctuation characters. -/
def strongClassChar (c : Char) : Bool :=
  c.isAlpha || c.isDigit || strongPunct.contains c

/-- `re.strong` (login.js lines 158–159): the lookaheads `(?=.*[A-Za-z])` and
`(?=.*\d)` require a letter and a digit (the `.`-excluded line terminators
are excluded from the body class anyway), and the anchored body
`[...]{6,}` requires every character in the class and length at least 6. -/
def strongTest (s : String) : Bool :=
  s.data.any Char.isAlpha && s.data.any Char.isDigit &&
  s.data.all strongClassChar && decide (6 ≤ s.data.length)

/-- `validateField` (login.js lines 197–219) as a function of the input's
`name` and raw `value`: `some msg` when the first failing rule calls
`setError` with that rule's message, `none` when control reaches
`clearError`.  The source's three sequential `if (name === ...)` blocks with
early returns are equivalent to this chain because the name can equal at
most one of the three literals. -/
def validateField (name rawValue : String) : Option Msg :=
  let val := jsTrim rawValue
  if name = "username" then
    if val = "" then some .usernameRequired
    else if !usernameTest val then some .usernameFormat
    else none
  else if name = "email" then
    if val = "" then some .emailRequired
    else if !emailTest val then some .emailFormat
    else none
  else if name = "password" then
    if val = "" then some .passwordRequired
    else if !strongTest val then some .passwordFormat
    else none
  else none

/-! ## Helper lemmas -/

@[simp]
theorem St.m_withM_self (s : St) (k : MKey) (ms : ModalState) :
    (s.withM k ms).m k = ms := by
  cases k <;> rfl

theorem St.m_withM_other (s : St) (k j : MKey) (ms : ModalState) (h : j ≠ k) :
    (s.withM k ms).m j = s.m j := by
  cases k <;> cases j <;> first | rfl | exact absurd rfl h

@[simp]
theorem St.withM_activeModal (s : St) (k : MKey) (ms : ModalState) :
    (s.withM k ms).activeModal = s.activeModal := by
  cases k <;> rfl

@[simp]
theorem St.withM_scrollLocked (s : St) (k : MKey) (ms : ModalState) :
    (s.withM k ms).scrollLocked = s.scrollLocked := by
  cases k <;> rfl

@[simp]
theorem St.withM_headerAriaHidden (s : St) (k : MKey) (ms : ModalState) :
    (s.withM k ms).headerAriaHidden = s.headerAriaHidden := by
  cases k <;> rfl

@[simp]
theorem St.withM_focused (s : St) (k : MKey) (ms : ModalState) :
    (s.withM k ms).focused = s.focused := by
  cases k <;> rfl

@[simp]
theorem St.withM_dom (s : St) (k : MKey) (ms : ModalState) (j : MKey) :
    (s.withM k ms).dom j = s.dom j := by
  cases k <;> cases j <;> rfl

/-- `openModal` is a no-op while some dialog is active (the guard on line 89). -/
theorem openModalStart_of_active (key : String) (s : St)
    (h : s.activeModal.isSome) : openModalStart key s = s := by
  unfold openModalStart
  cases hk : modals key with
  | none => rfl
  | some k => simp [h]

/-- `openModal` is a no-op on a key outside the `modals` map. -/
theorem openModalStart_of_unknown (key : String) (s : St)
    (h : modals key = none) : openModalStart key s = s := by
  unfold openModalStart
  rw [h]

/-- `closeModal` is a no-op when no dialog is active (the guard on line 117). -/
theorem closeModalStart_of_inactive (s : St) (h : s.activeModal = none) :
    closeModalStart s = s := by
  unfold closeModalStart
  rw [h]

theorem openModalResume_scrollLocked (k : MKey) (s : St) :
    (openModalResume k s).scrollLocked = true := by
  unfold openModalResume
  dsimp only
  split <;> cases k <;> rfl

theorem openModalResume_headerAriaHidden (k : MKey) (s : St) :
    (openModalResume k s).headerAriaHidden = true := by
  unfold openModalResume
  dsimp only
  split <;> cases k <;> rfl

theorem openModalResume_trapInstalled (k : MKey) (s : St) :
    ((openModalResume k s).m k).trapInstalled = true := by
  unfold openModalResume
  dsimp only
  split <;> cases k <;> rfl

theorem openModalResume_m (k : MKey) (s : St) :
    (openModalResume k s).m k = { s.m k with trapInstalled := true } := by
  unfold openModalResume
  dsimp only
  split <;> cases k <;> rfl

/-- After at least one application of the open continuation, the scroll lock
and header marker are set. -/
theorem applyN_openResume (k : MKey) :
    ∀ (n : Nat) (s : St),
      (applyN (openModalResume k) n (openModalResume k s)).scrollLocked = true ∧
      (applyN (openModalResume k) n (openModalResume k s)).headerAriaHidden = true ∧
      ((applyN (openModalResume k) n (openModalResume k s)).m k).trapInstalled = true
  | 0, s =>
      ⟨openModalResume_scrollLocked k s, openModalResume_headerAriaHidden k s,
       openModalResume_trapInstalled k s⟩
  | n + 1, s => applyN_openResume k n (openModalResume k s)

/-- After at least one application of the close continuation, the scroll lock
and header marker are cleared and no dialog is active. -/
theorem applyN_closeResume :
    ∀ (n : Nat) (s : St),
      (applyN closeModalResume n (closeModalResume s)).scrollLocked = false ∧
      (applyN closeModalResume n (closeModalResume s)).headerAriaHidden = false ∧
      (applyN closeModalResume n (closeModalResume s)).activeModal = none
  | 0, _ => ⟨rfl, rfl, rfl⟩
  | n + 1, s => applyN_closeResume n (closeModalResume s)

@[simp]
theorem closeModalResume_m (s : St) (k : MKey) :
    (closeModalResume s).m k = s.m k := by
  cases k <;> rfl

theorem applyN_closeResume_m (k : MKey) :
    ∀ (n : Nat) (s : St), ((applyN closeModalResume n s).m k) = s.m k
  | 0, _ => rfl
  | n + 1, s => by
      rw [applyN, applyN_closeResume_m k n, closeModalResume_m]

@[simp]
theorem St.m_set_active (s : St) (a : Option MKey) (k : MKey) :
    ({ s with activeModal := a } : St).m k = s.m k := by
  cases k <;> rfl

/-- The other dialog key. -/
def MKey.other : MKey → MKey
  | .register => .login
  | .login => .register

theorem MKey.eq_other_of_ne (j k : MKey) (h : j ≠ k) : j = k.other := by
  cases j <;> cases k <;> first | rfl | exact absurd rfl h

/-- An `animationend` whose target is a descendant, not the modal itself, is
ignored by both listeners. -/
theorem animEndStep_not_self (k : MKey) (s : St) : animEndStep k false s = s := rfl

/-- With no pending listeners on `k`, delivering `animationend` changes
nothing. -/
theorem animEndStep_noListeners (k : MKey) (b : Bool) (s : St)
    (hO : (s.m k).openListeners = 0) (hC : (s.m k).closeListeners = 0) :
    animEndStep k b s = s := by
  cases b
  · rfl
  · unfold animEndStep
    rw [if_pos rfl]
    dsimp only
    rw [hO, hC]
    simp only [lt_self_iff_false, if_false]
    show s.withM k (s.m k) = s
    cases k <;> rfl

/-- `closeModal`'s synchronous part on an active dialog, in closed form. -/
theorem closeModalStart_eq (s : St) (k : MKey) (hA : s.activeModal = some k) :
    closeModalStart s = (s.withM k { s.m k with trapInstalled := false }).withM k
      (animateCloseStart { s.m k with trapInstalled := false }) := by
  unfold closeModalStart
  rw [hA]
  dsimp only
  rw [St.m_withM_self]

/-- `openModal`'s synchronous part on a known key with no active dialog, in
closed form. -/
theorem openModalStart_eq (key : String) (k : MKey) (s : St)
    (hk : modals key = some k) (hA : s.activeModal = none) :
    openModalStart key s
      = ({ s with activeModal := some k } : St).withM k (animateOpenStart (s.m k)) := by
  unfold openModalStart
  rw [hk]
  dsimp only
  rw [if_neg (by rw [hA]; exact fun hh => Bool.noConfusion hh), St.m_set_active]

theorem openModalStart_scrollLocked (key : String) (s : St) :
    (openModalStart key s).scrollLocked = s.scrollLocked := by
  unfold openModalStart
  cases modals key with
  | none => rfl
  | some k =>
      dsimp only
      by_cases ha : s.activeModal.isSome
      · rw [if_pos ha]
      · rw [if_neg ha]
        simp

theorem openModalStart_headerAriaHidden (key : String) (s : St) :
    (openModalStart key s).headerAriaHidden = s.headerAriaHidden := by
  unfold openModalStart
  cases modals key with
  | none => rfl
  | some k =>
      dsimp only
      by_cases ha : s.activeModal.isSome
      · rw [if_pos ha]
      · rw [if_neg ha]
        simp

theorem closeModalStart_scrollLocked (s : St) :
    (closeModalStart s).scrollLocked = s.scrollLocked := by
  unfold closeModalStart
  cases s.activeModal with
  | none => rfl
  | some k => simp

theorem closeModalStart_headerAriaHidden (s : St) :
    (closeModalStart s).headerAriaHidden = s.headerAriaHidden := by
  unfold closeModalStart
  cases s.activeModal with
  | none => rfl
  | some k => simp

theorem closeModalStart_activeModal (s : St) :
    (closeModalStart s).activeModal = s.activeModal := by
  unfold closeModalStart
  cases hA : s.activeModal with
  | none => exact hA
  | some k => simpa using hA

/-- Resolving `animationend` on a modal with a pending open listener and no
pending close listener sets the scroll lock, the header marker and the trap. -/
theorem animEndStep_open_resolution (k : MKey) (s : St)
    (hO : 0 < (s.m k).openListeners) (hC : (s.m k).closeListeners = 0) :
    (animEndStep k true s).scrollLocked = true ∧
    (animEndStep k true s).headerAriaHidden = true ∧
    ((animEndStep k true s).m k).trapInstalled = true := by
  obtain ⟨n, hn⟩ : ∃ n, (s.m k).openListeners = n + 1 :=
    ⟨(s.m k).openListeners - 1, (Nat.succ_pred_eq_of_pos hO).symm⟩
  unfold animEndStep
  rw [if_pos rfl]
  dsimp only
  rw [hn, hC]
  simp only [lt_self_iff_false, if_false, Nat.succ_pos, if_pos, Nat.zero_lt_succ,
    if_true]
  show _ ∧ _ ∧ _
  rw [show applyN closeModalResume 0 = id from rfl]
  simp only [id_eq, applyN]
  exact applyN_openResume k n _

/-- Resolving `animationend` on a modal with a pending close listener clears
the scroll lock, the header marker and the active-dialog slot (the close
continuations run last). -/
theorem animEndStep_close_resolution (k : MKey) (s : St)
    (hC : 0 < (s.m k).closeListeners) :
    (animEndStep k true s).scrollLocked = false ∧
    (animEndStep k true s).headerAriaHidden = false ∧
    (animEndStep k true s).activeModal = none := by
  obtain ⟨n, hn⟩ : ∃ n, (s.m k).closeListeners = n + 1 :=
    ⟨(s.m k).closeListeners - 1, (Nat.succ_pred_eq_of_pos hC).symm⟩
  unfold animEndStep
  rw [if_pos rfl]
  dsimp only
  rw [hn]
  simp only [Nat.zero_lt_succ, if_pos, if_true]
  rw [show (applyN closeModalResume (n + 1))
      = fun x => applyN closeModalResume n (closeModalResume x) from rfl]
  exact applyN_closeResume n _

/-- Resolving `animationend` with exactly one pending open listener and one
pending close listener (a close issued mid-opening): both listeners fire,
then the open continuation runs, then the close continuation — leaving the
trap installed on a hidden, inactive dialog with the lock released. -/
theorem animEndStep_both_one (k : MKey) (s : St)
    (hO : (s.m k).openListeners = 1) (hC : (s.m k).closeListeners = 1) :
    ((animEndStep k true s).m k).trapInstalled = true ∧
    (animEndStep k true s).activeModal = none ∧
    ((animEndStep k true s).m k).hidden = true ∧
    (animEndStep k true s).scrollLocked = false := by
  unfold animEndStep
  rw [if_pos rfl]
  dsimp only
  rw [hO, hC]
  simp only [Nat.zero_lt_one, if_pos, if_true]
  rw [show (applyN closeModalResume 1) = closeModalResume from rfl,
    show (applyN (openModalResume k) 1) = openModalResume k from rfl]
  refine ⟨?_, rfl, ?_, rfl⟩
  · rw [closeModalResume_m, openModalResume_trapInstalled]
  · rw [closeModalResume_m, openModalResume_m, St.m_withM_self]

/-- A Tab keydown only ever changes `document.activeElement`. -/
theorem tabStep_focusOnly (k : MKey) (sh : Bool) (s : St) :
    ∃ nf, tabStep k sh s = { s with focused := nf } := by
  unfold tabStep
  by_cases ht : (s.m k).trapInstalled
  · rw [if_pos ht]
    cases hr : trapHandler (getFocusables (s.dom k)) "Tab" sh s.focused with
    | none => exact ⟨s.focused, rfl⟩
    | some p => exact ⟨p.1, by cases p; rfl⟩
  · rw [if_neg ht]
    exact ⟨s.focused, rfl⟩

@[simp]
theorem St.m_set_focused (s : St) (nf : Option Elem) (k : MKey) :
    ({ s with focused := nf } : St).m k = s.m k := by
  cases k <;> rfl

theorem closeModalStart_m_self (s : St) (k : MKey) (hA : s.activeModal = some k) :
    (closeModalStart s).m k = animateCloseStart { s.m k with trapInstalled := false } := by
  rw [closeModalStart_eq s k hA, St.m_withM_self]

theorem closeModalStart_m_other (s : St) (k j : MKey) (hA : s.activeModal = some k)
    (h : j ≠ k) : (closeModalStart s).m j = s.m j := by
  rw [closeModalStart_eq s k hA, St.m_withM_other _ _ _ _ h, St.m_withM_other _ _ _ _ h]

/-- Resolving `animationend` on a modal with no pending open listener and the
trap already removed leaves the trap removed — close continuations never
touch the trap. -/
theorem animEndStep_trap_stays_false (k : MKey) (s : St)
    (hO : (s.m k).openListeners = 0) (hT : (s.m k).trapInstalled = false) :
    ((animEndStep k true s).m k).trapInstalled = false := by
  unfold animEndStep
  rw [if_pos rfl]
  dsimp only
  rw [hO]
  simp only [lt_self_iff_false, if_false]
  rw [show applyN (openModalResume k) 0 = id from rfl]
  rw [applyN_closeResume_m]
  dsimp only [id_eq]
  rw [St.m_withM_self]
  by_cases hc : 0 < (s.m k).closeListeners
  · rw [if_pos hc]
    exact hT
  · rw [if_neg hc]
    exact hT

/-- A property preserved by every step other than a designated event is
preserved by every run avoiding that event. -/
theorem run_preserve (P : St → Prop) (bad : Evt)
    (hstep : ∀ s e, P s → e ≠ bad → P (step s e)) :
    ∀ (t : List Evt) (s : St), P s → bad ∉ t → P (run s t)
  | [], _, hP, _ => hP
  | e :: tl, s, hP, hmem => by
      rw [run]
      refine run_preserve P bad hstep tl (step s e) (hstep s e hP ?_) ?_
      · intro he
        apply hmem
        rw [he]
        exact List.mem_cons_self _ _
      · intro hm
        exact hmem (List.mem_cons_of_mem e hm)

/-- Invariant while the open of the login dialog is suspended on its
animation promise: the listener stays pending and none of the post-await
effects have happened. -/
def c3Inv (s : St) : Prop :=
  s.activeModal = some MKey.login ∧ (s.m MKey.login).openListeners = 1 ∧
  s.scrollLocked = false ∧ s.headerAriaHidden = false ∧
  (s.m MKey.login).trapInstalled = false ∧
  (s.m MKey.register).openListeners = 0 ∧ (s.m MKey.register).closeListeners = 0

theorem c3Inv_step (s : St) (e : Evt) (hInv : c3Inv s)
    (he : e ≠ Evt.animationEnd MKey.login true) : c3Inv (step s e) := by
  obtain ⟨hA, hO, hSL, hH, hT, hRO, hRC⟩ := hInv
  cases e with
  | openClick key =>
      rw [show step s (Evt.openClick key) = openModalStart key s from rfl,
        openModalStart_of_active key s (by rw [hA]; rfl)]
      exact ⟨hA, hO, hSL, hH, hT, hRO, hRC⟩
  | closeClick =>
      show c3Inv (closeModalStart s)
      refine ⟨?_, ?_, ?_, ?_, ?_, ?_, ?_⟩
      · rw [closeModalStart_activeModal]; exact hA
      · rw [closeModalStart_m_self s .login hA]; exact hO
      · rw [closeModalStart_scrollLocked]; exact hSL
      · rw [closeModalStart_headerAriaHidden]; exact hH
      · rw [closeModalStart_m_self s .login hA]; rfl
      · rw [closeModalStart_m_other s .login .register hA (by decide)]; exact hRO
      · rw [closeModalStart_m_other s .login .register hA (by decide)]; exact hRC
  | animationEnd j b =>
      show c3Inv (animEndStep j b s)
      cases j with
      | login =>
          cases b with
          | false => rw [animEndStep_not_self]; exact ⟨hA, hO, hSL, hH, hT, hRO, hRC⟩
          | true => exact absurd rfl he
      | register =>
          cases b with
          | false => rw [animEndStep_not_self]; exact ⟨hA, hO, hSL, hH, hT, hRO, hRC⟩
          | true =>
              rw [animEndStep_noListeners .register true s hRO hRC]
              exact ⟨hA, hO, hSL, hH, hT, hRO, hRC⟩
  | tabKey j sh =>
      obtain ⟨nf, hnf⟩ := tabStep_focusOnly j sh s
      show c3Inv (tabStep j sh s)
      rw [hnf]
      exact ⟨hA, by rw [St.m_set_focused]; exact hO, hSL, hH,
        by rw [St.m_set_focused]; exact hT,
        by rw [St.m_set_focused]; exact hRO,
        by rw [St.m_set_focused]; exact hRC⟩

theorem c3Inv_init (dr dl : List Elem) :
    c3Inv (openModalStart "login" (initSt dr dl)) :=
  ⟨rfl, rfl, rfl, rfl, rfl, rfl, rfl⟩

/-- Invariant after the trap has been removed by `closeModal` on a dialog
with no pending open listener: nothing can reinstall the trap before the
close resolves. -/
def c4Inv (s : St) (k : MKey) : Prop :=
  s.activeModal = some k ∧ (s.m k).trapInstalled = false ∧
  (s.m k).openListeners = 0 ∧
  (s.m k.other).openListeners = 0 ∧ (s.m k.other).closeListeners = 0

theorem c4Inv_step (s : St) (k : MKey) (e : Evt) (hInv : c4Inv s k)
    (he : e ≠ Evt.animationEnd k true) : c4Inv (step s e) k := by
  obtain ⟨hA, hT, hO, hXO, hXC⟩ := hInv
  have hne : k.other ≠ k := by cases k <;> decide
  cases e with
  | openClick key =>
      rw [show step s (Evt.openClick key) = openModalStart key s from rfl,
        openModalStart_of_active key s (by rw [hA]; rfl)]
      exact ⟨hA, hT, hO, hXO, hXC⟩
  | closeClick =>
      show c4Inv (closeModalStart s) k
      refine ⟨?_, ?_, ?_, ?_, ?_⟩
      · rw [closeModalStart_activeModal]; exact hA
      · rw [closeModalStart_m_self s k hA]; rfl
      · rw [closeModalStart_m_self s k hA]; exact hO
      · rw [closeModalStart_m_other s k k.other hA hne]; exact hXO
      · rw [closeModalStart_m_other s k k.other hA hne]; exact hXC
  | animationEnd j b =>
      show c4Inv (animEndStep j b s) k
      by_cases hj : j = k
      · subst hj
        cases b with
        | false => rw [animEndStep_not_self]; exact ⟨hA, hT, hO, hXO, hXC⟩
        | true => exact absurd rfl he
      · have hj' : j = k.other := MKey.eq_other_of_ne j k hj
        subst hj'
        rw [animEndStep_noListeners k.other b s hXO hXC]
        exact ⟨hA, hT, hO, hXO, hXC⟩
  | tabKey j sh =>
      obtain ⟨nf, hnf⟩ := tabStep_focusOnly j sh s
      show c4Inv (tabStep j sh s) k
      rw [hnf]
      exact ⟨hA, by rw [St.m_set_focused]; exact hT,
        by rw [St.m_set_focused]; exact hO,
        by rw [St.m_set_focused]; exact hXO,
        by rw [St.m_set_focused]; exact hXC⟩

/-- Characterisation of `re.strong`'s whole-string match. -/
theorem strongTest_iff (s : String) :
    strongTest s = true ↔
      (6 ≤ s.data.length ∧ s.data.any Char.isAlpha = true ∧
       s.data.any Char.isDigit = true ∧ s.data.all strongClassChar = true) := by
  unfold strongTest
  simp only [Bool.and_eq_true, decide_eq_true_eq]
  tauto

/-! ## Example states used by witnesses -/

/-- A state in which the login dialog is mid-opening: `activeModal` set, one
pending open listener, trap not yet installed. -/
def exOpening : St :=
  { regDom := [], logDom := [],
    regM := ⟨true, false, false, false, 0, 0⟩,
    logM := ⟨false, true, false, false, 1, 0⟩,
    activeModal := some .login, scrollLocked := false, headerAriaHidden := false,
    focused := none }

/-- A focusable button element. -/
def exBtn : Elem := ⟨1, "button", false, none, false, none⟩

/-- A state in which the login dialog is fully open: trap installed, scroll
locked, header hidden, no pending listeners. -/
def exOpen : St :=
  { regDom := [], logDom := [exBtn],
    regM := ⟨true, false, false, false, 0, 0⟩,
    logM := ⟨false, false, false, true, 0, 0⟩,
    activeModal := some .login, scrollLocked := true, headerAriaHidden := true,
    focused := some exBtn }

/-- A state in which the login dialog is mid-closing: one pending close
listener, trap already removed. -/
def exClosing : St :=
  { regDom := [], logDom := [],
    regM := ⟨true, false, false, false, 0, 0⟩,
    logM := ⟨false, false, true, false, 0, 1⟩,
    activeModal := some .login, scrollLocked := true, headerAriaHidden := true,
    focused := none }

/-! ## Claims -/

/-- Claim C1: at most one dialog is active at any instant — while any dialog
is active (`activeModal` is set, which covers Open, Opening and Closing), a
call to `openModal` with any key is a no-op leaving the whole state
unchanged, and `openModal` is likewise a no-op when the key does not map to a
known dialog. -/
theorem c1_open_mutual_exclusion (s : St) (key : String) :
    (s.activeModal.isSome → openModalStart key s = s) ∧
    (modals key = none → openModalStart key s = s) :=
  ⟨fun h => openModalStart_of_active key s h,
   fun h => openModalStart_of_unknown key s h⟩

/-- Witness for C1 at a concrete active state and a concrete unknown key. -/
theorem c1_open_mutual_exclusion_witness :
    openModalStart "register" exOpening = exOpening ∧
    openModalStart "nope" (initSt [] []) = initSt [] [] :=
  ⟨(c1_open_mutual_exclusion exOpening "register").1 (by decide),
   (c1_open_mutual_exclusion (initSt [] []) "nope").2 (by decide)⟩

/-- Claim C7: a close request (`[data-close]` click, backdrop mousedown, or
Escape — all of which invoke `closeModal`) when no dialog is active is a
no-op: the state, including the active-dialog slot, scroll lock, header
marker and every dialog's state, is unchanged, and no error is raised (the
step is total). -/
theorem c7_close_noop_when_inactive (s : St) (h : s.activeModal = none) :
    closeModalStart s = s ∧ step s Evt.closeClick = s :=
  ⟨closeModalStart_of_inactive s h, closeModalStart_of_inactive s h⟩

/-- Witness for C7 at the initial state. -/
theorem c7_close_noop_when_inactive_witness :
    closeModalStart (initSt [] []) = initSt [] [] ∧
    step (initSt [] []) Evt.closeClick = initSt [] [] :=
  c7_close_noop_when_inactive (initSt [] []) (by decide)

/-- Claim C5: the field validator on (name, trimmed value) returns the
verdict of the first failing rule in priority order — the emptiness check
fires before the format check for each known field — and the seven concrete
examples evaluate as the spec states. -/
theorem c5_validateField_rules :
    (∀ v : String, jsTrim v = "" →
      validateField "username" v = some Msg.usernameRequired ∧
      validateField "email" v = some Msg.emailRequired ∧
      validateField "password" v = some Msg.passwordRequired) ∧
    validateField "username" "" = some Msg.usernameRequired ∧
    validateField "username" "ab" = some Msg.usernameFormat ∧
    validateField "username" "abc_123" = none ∧
    validateField "email" "a@b.c" = some Msg.emailFormat ∧
    validateField "email" "a@b.co" = none ∧
    validateField "password" "abc123" = none ∧
    validateField "password" "abcdef" = some Msg.passwordFormat := by
  refine ⟨fun v hv => ?_, by decide, by decide, by decide, by decide, by decide,
    by decide, by decide⟩
  refine ⟨?_, ?_, ?_⟩ <;> simp [validateField, hv]

/-- Witness for C5's priority clause at the all-whitespace value. -/
theorem c5_validateField_rules_witness :
    validateField "username" "  " = some Msg.usernameRequired ∧
    validateField "email" "  " = some Msg.emailRequired ∧
    validateField "password" "  " = some Msg.passwordRequired :=
  c5_validateField_rules.1 "  " (by decide)

/-- Claim C6 fails on the code: `"abc 12"` is a non-empty password value of
six characters containing a letter and a digit (and a space, a printable
character), yet `validateField` rejects it, because the body class of
`re.strong` does not contain the space character. -/
theorem c6_counterexample_space_password :
    jsTrim "abc 12" ≠ "" ∧
    6 ≤ (jsTrim "abc 12").data.length ∧
    (jsTrim "abc 12").data.any Char.isAlpha = true ∧
    (jsTrim "abc 12").data.any Char.isDigit = true ∧
    validateField "password" "abc 12" = some Msg.passwordFormat := by
  decide

/-- Claim C6 as amended: a non-empty trimmed password value is valid iff it
has at least 6 characters, at least one letter, at least one digit, AND every
character is a letter, a digit, or one of the punctuation characters of
`re.strong`'s class — characters outside that class (such as space) make the
value invalid. -/
theorem c6_amended_password_class (v : String) (h : jsTrim v ≠ "") :
    validateField "password" v = none ↔
      (6 ≤ (jsTrim v).data.length ∧ (jsTrim v).data.any Char.isAlpha = true ∧
       (jsTrim v).data.any Char.isDigit = true ∧
       (jsTrim v).data.all strongClassChar = true) := by
  have hred : validateField "password" v
      = (if jsTrim v = "" then some Msg.passwordRequired
         else if !strongTest (jsTrim v) then some Msg.passwordFormat else none) := rfl
  rw [hred, if_neg h]
  cases hs : strongTest (jsTrim v) with
  | false =>
      refine iff_of_false (by simp) fun hc => ?_
      have hT := (strongTest_iff (jsTrim v)).mpr hc
      rw [hs] at hT
      exact Bool.noConfusion hT
  | true =>
      exact iff_of_true (by simp) ((strongTest_iff (jsTrim v)).mp hs)

/-- Witness for the amended C6 at a concrete valid password. -/
theorem c6_amended_password_class_witness :
    validateField "password" "abc123" = none ↔
      (6 ≤ (jsTrim "abc123").data.length ∧ (jsTrim "abc123").data.any Char.isAlpha = true ∧
       (jsTrim "abc123").data.any Char.isDigit = true ∧
       (jsTrim "abc123").data.all strongClassChar = true) :=
  c6_amended_password_class "abc123" (by decide)

/-- Claim C10: `getFocusables` excludes every element whose `aria-hidden`
attribute is present with a non-empty value (in particular
`aria-hidden="false"`), so such an element is never first or last in the
focusable sequence — it neither bounds the trap's tab cycle nor receives
initial focus. -/
theorem c10_ariaHidden_nonempty_excluded (elems : List Elem) (el : Elem)
    (v : String) (h1 : el.ariaHidden = some v) (h2 : v ≠ "") :
    el ∉ getFocusables elems ∧ (getFocusables elems).head? ≠ some el ∧
    (getFocusables elems).getLast? ≠ some el := by
  have hmem : el ∉ getFocusables elems := by
    intro hm
    have hfilt := (List.mem_filter.mp hm).2
    rw [h1] at hfilt
    simp [jsTruthyAttr, h2] at hfilt
  refine ⟨hmem, fun hh => hmem ?_, fun hl => hmem ?_⟩
  · exact List.mem_of_mem_head? hh
  · obtain ⟨hne, heq⟩ :=
      List.mem_getLast?_eq_getLast (show el ∈ (getFocusables elems).getLast? from hl)
    exact heq ▸ List.getLast_mem hne

/-- Witness for C10: an `aria-hidden="false"` button inside a list. -/
theorem c10_ariaHidden_nonempty_excluded_witness :
    (⟨7, "button", false, none, false, some "false"⟩ : Elem) ∉
      getFocusables [exBtn, ⟨7, "button", false, none, false, some "false"⟩] ∧
    (getFocusables [exBtn, ⟨7, "button", false, none, false, some "false"⟩]).head? ≠
      some ⟨7, "button", false, none, false, some "false"⟩ ∧
    (getFocusables [exBtn, ⟨7, "button", false, none, false, some "false"⟩]).getLast? ≠
      some ⟨7, "button", false, none, false, some "false"⟩ :=
  c10_ariaHidden_nonempty_excluded _ _ "false" rfl (by decide)

/-- Claim C8: with zero focusable descendants, installing the trap on open is
harmless — the open continuation completes leaving focus unchanged
(`first?.focus()` is skipped), and every Tab press handled by the trap
neither crashes (the handler never reaches `.focus()` on `undefined`, since
`document.activeElement` never strictly equals `undefined`) nor redirects
focus nor suppresses the default. -/
theorem c8_empty_focusables_harmless (s : St) (k : MKey)
    (h : getFocusables (s.dom k) = []) :
    (openModalResume k s).focused = s.focused ∧
    (∀ shift active, trapHandler [] "Tab" shift active = some (active, false)) ∧
    (∀ shift, step s (Evt.tabKey k shift) = s) := by
  refine ⟨?_, ?_, ?_⟩
  · unfold openModalResume
    dsimp only
    rw [show (({ s with scrollLocked := true, headerAriaHidden := true } : St).withM k
        { ({ s with scrollLocked := true, headerAriaHidden := true } : St).m k with
          trapInstalled := true }).dom k = s.dom k from by cases k <;> rfl, h]
    cases k <;> rfl
  · intro shift active
    cases active <;> cases shift <;> rfl
  · intro shift
    show tabStep k shift s = s
    unfold tabStep
    rw [h]
    by_cases ht : (s.m k).trapInstalled
    · rw [if_pos ht]
      have hh : trapHandler [] "Tab" shift s.focused = some (s.focused, false) := by
        cases hf : s.focused <;> cases shift <;> rfl
      rw [hh]
    · rw [if_neg ht]

/-- Witness for C8: a state whose login dialog has no focusable elements. -/
theorem c8_empty_focusables_harmless_witness :
    (openModalResume MKey.login (initSt [] [])).focused = (initSt [] []).focused ∧
    trapHandler [] "Tab" true none = some (none, false) ∧
    step (initSt [] []) (Evt.tabKey MKey.login false) = initSt [] [] :=
  have h := c8_empty_focusables_harmless (initSt [] []) MKey.login (by decide)
  ⟨h.1, h.2.1 true none, h.2.2 false⟩

/-- Claim C2: side effects are strictly ordered around animations.  The
synchronous parts of `openModal` and `closeModal` leave the scroll lock and
header marker untouched (and the close start leaves the active-dialog slot
untouched); the lock/marker are set exactly when the awaited open animation
resolves, and cleared (with the active-dialog slot) exactly when the awaited
close animation resolves. -/
theorem c2_side_effects_ordered (s : St) (key : String) (k : MKey) :
    ((openModalStart key s).scrollLocked = s.scrollLocked ∧
     (openModalStart key s).headerAriaHidden = s.headerAriaHidden) ∧
    ((closeModalStart s).scrollLocked = s.scrollLocked ∧
     (closeModalStart s).headerAriaHidden = s.headerAriaHidden ∧
     (closeModalStart s).activeModal = s.activeModal) ∧
    (0 < (s.m k).openListeners → (s.m k).closeListeners = 0 →
      (animEndStep k true s).scrollLocked = true ∧
      (animEndStep k true s).headerAriaHidden = true) ∧
    (0 < (s.m k).closeListeners →
      (animEndStep k true s).scrollLocked = false ∧
      (animEndStep k true s).headerAriaHidden = false ∧
      (animEndStep k true s).activeModal = none) := by
  refine ⟨⟨openModalStart_scrollLocked key s, openModalStart_headerAriaHidden key s⟩,
    ⟨closeModalStart_scrollLocked s, closeModalStart_headerAriaHidden s,
     closeModalStart_activeModal s⟩, fun hO hC => ?_, fun hC => ?_⟩
  · exact ⟨(animEndStep_open_resolution k s hO hC).1,
      (animEndStep_open_resolution k s hO hC).2.1⟩
  · exact animEndStep_close_resolution k s hC

/-- Witness for C2 at a mid-opening state and a mid-closing state. -/
theorem c2_side_effects_ordered_witness :
    (openModalStart "register" exOpening).scrollLocked = exOpening.scrollLocked ∧
    (animEndStep MKey.login true exOpening).scrollLocked = true ∧
    (animEndStep MKey.login true exClosing).scrollLocked = false ∧
    (animEndStep MKey.login true exClosing).activeModal = none :=
  have h1 := c2_side_effects_ordered exOpening "register" MKey.login
  have h2 := c2_side_effects_ordered exClosing "register" MKey.login
  ⟨h1.1.1, (h1.2.2.1 (by decide) (by decide)).1,
   (h2.2.2.2 (by decide)).1, (h2.2.2.2 (by decide)).2.2⟩

/-- Claim C9: a close request while the dialog is still Opening is accepted,
not ignored — the closing animation starts immediately (classes swapped, a
close listener registered, `activeModal` still set) — and when the pending
open animation resolves (the single `animationend` at the modal resolves
both promises), the suspended open continuation still runs: it applies the
scroll lock, sets the header marker and installs the focus trap, which is
why the trap is left installed on the now-hidden, closed dialog. -/
theorem c9_close_during_opening (s : St) (k : MKey)
    (hA : s.activeModal = some k) (hO : (s.m k).openListeners = 1)
    (hC : (s.m k).closeListeners = 0) :
    (((closeModalStart s).m k).isClosing = true ∧
     ((closeModalStart s).m k).isOpening = false ∧
     ((closeModalStart s).m k).closeListeners = 1 ∧
     (closeModalStart s).activeModal = some k) ∧
    (((animEndStep k true (closeModalStart s)).m k).trapInstalled = true ∧
     (animEndStep k true (closeModalStart s)).activeModal = none ∧
     ((animEndStep k true (closeModalStart s)).m k).hidden = true ∧
     (animEndStep k true (closeModalStart s)).scrollLocked = false) ∧
    (∀ s' : St, (openModalResume k s').scrollLocked = true ∧
      (openModalResume k s').headerAriaHidden = true ∧
      ((openModalResume k s').m k).trapInstalled = true) := by
  have hm : (closeModalStart s).m k
      = animateCloseStart { s.m k with trapInstalled := false } := by
    rw [closeModalStart_eq s k hA, St.m_withM_self]
  refine ⟨⟨?_, ?_, ?_, ?_⟩, ?_, fun s' =>
    ⟨openModalResume_scrollLocked k s', openModalResume_headerAriaHidden k s',
     openModalResume_trapInstalled k s'⟩⟩
  · rw [hm]; rfl
  · rw [hm]; rfl
  · rw [hm]; show (s.m k).closeListeners + 1 = 1; rw [hC]
  · rw [closeModalStart_activeModal]; exact hA
  · have hO' : ((closeModalStart s).m k).openListeners = 1 := by
      rw [hm]; exact hO
    have hC' : ((closeModalStart s).m k).closeListeners = 1 := by
      rw [hm]; show (s.m k).closeListeners + 1 = 1; rw [hC]
    exact animEndStep_both_one k (closeModalStart s) hO' hC'

/-- Witness for C9 at the concrete mid-opening state. -/
theorem c9_close_during_opening_witness :
    ((closeModalStart exOpening).m MKey.login).isClosing = true ∧
    ((animEndStep MKey.login true (closeModalStart exOpening)).m
        MKey.login).trapInstalled = true ∧
    (animEndStep MKey.login true (closeModalStart exOpening)).activeModal = none ∧
    (openModalResume MKey.login exOpening).scrollLocked = true :=
  have h := c9_close_during_opening exOpening MKey.login (by decide) (by decide)
    (by decide)
  ⟨h.1.1, h.2.1.1, h.2.1.2.1, (h.2.2 exOpening).1⟩

/-- Claim C3 fails on the code: `animateOpen` / `animateClose` resolve only
from an `animationend` listener and set no fallback timer.  Concretely, after
`openModal("login")` the awaited promise is pending (one open listener, no
side effects yet), and it is still pending after a close request, a bubbled
`animationend` from a descendant, a Tab press and an `animationend` on the
other modal — nothing but an `animationend` targeting the container can ever
settle it. -/
theorem c3_counterexample_no_fallback :
    (((run (initSt [] []) [Evt.openClick "login"]).m MKey.login).openListeners = 1 ∧
     (run (initSt [] []) [Evt.openClick "login"]).scrollLocked = false) ∧
    (((run (initSt [] [])
          [Evt.openClick "login", Evt.closeClick, Evt.animationEnd MKey.login false,
           Evt.tabKey MKey.login false, Evt.animationEnd MKey.register true]).m
        MKey.login).openListeners = 1 ∧
     (run (initSt [] [])
          [Evt.openClick "login", Evt.closeClick, Evt.animationEnd MKey.login false,
           Evt.tabKey MKey.login false, Evt.animationEnd MKey.register true]).scrollLocked
       = false) := by
  decide

/-- Claim C3 as amended: the awaited completion settles exactly when an
`animationend` event whose target is the container is delivered; there is no
fallback timeout, so along any run that never delivers such an event the
open continuation never runs — the listener stays pending and none of the
post-await effects (scroll lock, header marker, trap) ever happen, i.e. the
suspended `openModal` hangs indefinitely. -/
theorem c3_amended_requires_animationend (dr dl : List Elem) (t : List Evt)
    (h : Evt.animationEnd MKey.login true ∉ t) :
    ((run (openModalStart "login" (initSt dr dl)) t).m MKey.login).openListeners = 1 ∧
    (run (openModalStart "login" (initSt dr dl)) t).scrollLocked = false ∧
    (run (openModalStart "login" (initSt dr dl)) t).headerAriaHidden = false ∧
    ((run (openModalStart "login" (initSt dr dl)) t).m MKey.login).trapInstalled
      = false := by
  have hr := run_preserve c3Inv (Evt.animationEnd MKey.login true) c3Inv_step t
    (openModalStart "login" (initSt dr dl)) (c3Inv_init dr dl) h
  exact ⟨hr.2.1, hr.2.2.1, hr.2.2.2.1, hr.2.2.2.2.1⟩

/-- Witness for the amended C3 on a concrete animationend-free run. -/
theorem c3_amended_requires_animationend_witness :
    ((run (openModalStart "login" (initSt [] [])) [Evt.closeClick]).m
        MKey.login).openListeners = 1 ∧
    (run (openModalStart "login" (initSt [] [])) [Evt.closeClick]).scrollLocked
      = false ∧
    (run (openModalStart "login" (initSt [] [])) [Evt.closeClick]).headerAriaHidden
      = false ∧
    ((run (openModalStart "login" (initSt [] [])) [Evt.closeClick]).m
        MKey.login).trapInstalled = false :=
  c3_amended_requires_animationend [] [] [Evt.closeClick] (by decide)

/-- Claim C4: closing a fully Open dialog removes the focus-trap handler
immediately, in the same synchronous step as the close request and before
the close animation starts (the close listener is freshly pending and the
scroll lock untouched); and along every continuation of the execution the
trap stays removed up to and including the step in which the close animation
resolves — no trap handler of this open cycle survives the dialog's open
state. -/
theorem c4_trap_removed_on_close (s : St) (k : MKey)
    (hA : s.activeModal = some k) (hT : (s.m k).trapInstalled = true)
    (hO : (s.m k).openListeners = 0) (hC : (s.m k).closeListeners = 0)
    (hXO : (s.m k.other).openListeners = 0)
    (hXC : (s.m k.other).closeListeners = 0) :
    ((closeModalStart s).m k).trapInstalled = false ∧
    ((closeModalStart s).m k).isClosing = true ∧
    ((closeModalStart s).m k).closeListeners = 1 ∧
    (closeModalStart s).scrollLocked = s.scrollLocked ∧
    (∀ t, Evt.animationEnd k true ∉ t →
      ((run (closeModalStart s) t).m k).trapInstalled = false ∧
      ((animEndStep k true (run (closeModalStart s) t)).m k).trapInstalled
        = false) := by
  have hm := closeModalStart_m_self s k hA
  have hne : k.other ≠ k := by cases k <;> decide
  have hInv : c4Inv (closeModalStart s) k := by
    refine ⟨?_, ?_, ?_, ?_, ?_⟩
    · rw [closeModalStart_activeModal]; exact hA
    · rw [hm]; rfl
    · rw [hm]; exact hO
    · rw [closeModalStart_m_other s k k.other hA hne]; exact hXO
    · rw [closeModalStart_m_other s k k.other hA hne]; exact hXC
  refine ⟨by rw [hm]; rfl, by rw [hm]; rfl, ?_, closeModalStart_scrollLocked s,
    fun t ht => ?_⟩
  · rw [hm]
    show (s.m k).closeListeners + 1 = 1
    rw [hC]
  · have hr := run_preserve (fun s' => c4Inv s' k) (Evt.animationEnd k true)
      (fun s' e hP he => c4Inv_step s' k e hP he) t (closeModalStart s) hInv ht
    exact ⟨hr.2.1, animEndStep_trap_stays_false k _ hr.2.2.1 hr.2.1⟩

/-- Witness for C4 at the concrete fully-open state with the empty
continuation trace. -/
theorem c4_trap_removed_on_close_witness :
    ((closeModalStart exOpen).m MKey.login).trapInstalled = false ∧
    ((closeModalStart exOpen).m MKey.login).isClosing = true ∧
    ((run (closeModalStart exOpen) []).m MKey.login).trapInstalled = false ∧
    ((animEndStep MKey.login true (run (closeModalStart exOpen) [])).m
        MKey.login).trapInstalled = false :=
  have h := c4_trap_removed_on_close exOpen MKey.login (by decide) (by decide)
    (by decide) (by decide) (by decide) (by decide)
  have h5 := h.2.2.2.2 [] (by decide)
  ⟨h.1, h.2.1, h5.1, h5.2⟩

end LoginJs
